import Mathlib

/-
  Verification development for the retuve hip-ultrasound analysis pipeline.

  Shallow embedding of the code in:
    src/retuve/hip_us/handlers/bad_data.py
    src/retuve/hip_us/modes/landmarks.py
    src/retuve/hip_us/metrics/c_ratio.py
    src/retuve/funcs.py

  Pixel coordinates and metric values are modelled as rationals; numpy
  float arithmetic on exact inputs is modelled by exact rational
  arithmetic (Euclidean-distance comparisons such as norm < 30 are
  stated as squared-distance comparisons, which is equivalent over the
  reals for nonnegative bounds).  External geometric subroutines that
  live in modules not under src (bad_alpha, bad_coverage, the arccos
  10-degree comparison, np.polyfit) are abstracted as parameters, and
  the theorems hold for every instantiation of them.
-/

namespace Retuve

/-- A 2D pixel point.  Landmark coordinates in the code are integer
pixel tuples (fitted apex replacements are rounded back to ints), so
they are modelled as pairs of integers. -/
abbrev Point := ℤ × ℤ

/-- A 3D point, used by the centering-ratio metric. -/
abbrev Point3 := ℚ × ℚ × ℚ

/-- The six named optional landmark points of a frame
(retuve.hip_us.classes.general.LandmarksUS, fields as used by the code
under src). -/
structure LandmarksUS where
  left : Option Point := none
  right : Option Point := none
  apex : Option Point := none
  point_D : Option Point := none
  point_d : Option Point := none
  mid_cov_point : Option Point := none
deriving DecidableEq, Repr

/-- The metric identifiers used by landmarks_2_metrics_us
(retuve.keyphrases.enums.MetricUS members ALPHA and COVERAGE). -/
inductive MetricUS
  | alpha
  | coverage
deriving DecidableEq, Repr

/-- A named scalar per-frame metric (retuve.classes.metrics.Metric2D). -/
structure Metric2D where
  name : MetricUS
  value : ℚ
deriving DecidableEq, Repr

/-- One frame of hip data (retuve.hip_us.classes.general.HipDataUS),
restricted to the fields read by the code under src: the frame index,
the optional landmarks and the metric list. -/
structure HipDataUS where
  frame_no : ℕ
  landmarks : Option LandmarksUS := none
  metrics : List Metric2D := []
deriving DecidableEq, Repr

/-- Modelled from the spec: HipDataUS.marked, the per-frame boolean
has-prediction flag (the class retuve.hip_us.classes.general.HipDataUS is
not under src, only its callers are).  Per the spec, the bad-frame filter
computes a boolean has-prediction mask per frame; a frame has a
prediction when the detector produced landmarks or metrics for it, and
the empty placeholder (same frame index, no landmarks, no metrics) has
none. -/
def HipDataUS.marked (hip : HipDataUS) : Bool :=
  hip.landmarks.isSome || !hip.metrics.isEmpty

/-- The analysis modes (retuve.keyphrases.enums.HipMode). -/
inductive HipMode
  | US3D
  | US2D
  | US2DSW
  | XRAY
deriving DecidableEq, Repr

/-- The configuration fields read by the embedded code
(retuve.keyphrases.config.Config, flattened: config.batch.hip_mode,
config.hip.allow_irregular_illiums, config.hip.measurements,
config.hip.use_polyfit_replace_apex). -/
structure Config where
  hip_mode : HipMode
  allow_irregular_illiums : Bool := false
  measurements : List MetricUS := [MetricUS.alpha, MetricUS.coverage]
  use_polyfit_replace_apex : Bool := false

/-- External geometric subroutines called by the bad-frame filter.
bad_alpha (retuve.hip_us.metrics.alpha) and bad_coverage
(retuve.hip_us.metrics.coverage) live in modules not under src;
angleLt10 abstracts the real-valued arccos comparison
abs(angle) < 10 inside left_apex_line_flat, applied to the left and
apex points.  All theorems below are universally quantified over
these, so they hold for the actual library routines. -/
structure GeomChecks where
  badAlpha : HipDataUS → Bool
  badCoverage : HipDataUS → Config → Bool
  angleLt10 : Point → Point → Bool

/-- The collection of per-frame hip data for one study
(retuve.hip_us.classes.general.HipDatasUS): the ordered frame list plus
the study-wide fields used by the embedded code.  The Python dict
bad_frame_reasons is modelled as an association list ordered by
insertion. -/
structure HipDatasUS where
  hips : List HipDataUS := []
  all_seg_rejection_reasons : List (List String) := []
  bad_frame_reasons : List (ℕ × String) := []
  graf_frame : Option ℕ := none
deriving DecidableEq, Repr

/-- Dict lookup into the bad_frame_reasons association list. -/
def lookupReason (H : HipDatasUS) (i : ℕ) : Option String :=
  (H.bad_frame_reasons.find? (fun p => p.1 == i)).map Prod.snd

/- ------------------------------------------------------------------
   src/retuve/hip_us/handlers/bad_data.py
   ------------------------------------------------------------------ -/

/-- left_apex_line_flat (bad_data.py lines 64-87).  The missing-point
branch returns True; otherwise the code forms the triangle of left,
apex and the horizontal projection and compares the arccos angle with
10 degrees, abstracted here as g.angleLt10 left apex.  The
landmarks-none branch is unreachable at the call site (the filter has
already rejected such frames) and is completed with True. -/
def left_apex_line_flat (g : GeomChecks) (hip : HipDataUS) : Bool :=
  match hip.landmarks with
  | none => true
  | some lm =>
    match lm.left, lm.apex with
    | some l, some a => g.angleLt10 l a
    | _, _ => true

/-- Squared Euclidean distance between two pixel points. -/
def distSq (p q : Point) : ℤ :=
  (p.1 - q.1) * (p.1 - q.1) + (p.2 - q.2) * (p.2 - q.2)

/-- apex_right_points_too_close (bad_data.py lines 90-104): missing
right or apex counts as too close, otherwise the Euclidean distance is
compared with 30 (stated as squared distance below 900).  The
landmarks-none branch is unreachable at the call site and completed
with True. -/
def apex_right_points_too_close (hip : HipDataUS) : Bool :=
  match hip.landmarks with
  | none => true
  | some lm =>
    match lm.right, lm.apex with
    | some r, some a => decide (distSq r a < 900)
    | _, _ => true

/-- sum(pred_made): the number of True entries of the mask. -/
def trueCount (pred : List Bool) : ℕ :=
  pred.countP (fun b => b)

/-- sum(pred_made[i : i + w]): True entries inside the window of width
w starting at i. -/
def windowTrueCount (pred : List Bool) (i w : ℕ) : ℕ :=
  trueCount ((pred.drop i).take w)

/-- One step of the sliding-window maximum scan in remove_outliers
(bad_data.py lines 49-53): a window beats the running best only with a
strictly larger count, so the earliest maximum is kept. -/
def slideStep (f : ℕ → ℕ) (acc : ℕ × ℕ) (i : ℕ) : ℕ × ℕ :=
  if acc.1 < f i then (f i, i) else acc

/-- The scan over window starts 0, 1, ..., n-1 with initial best
(max_true, max_true_index) = (0, 0). -/
def slideArgmax (f : ℕ → ℕ) (n : ℕ) : ℕ × ℕ :=
  (List.range n).foldl (slideStep f) (0, 0)

/-- max_true_index as computed by remove_outliers: the window width is
total_true and the scanned starts are 0 .. len - total_true. -/
def maxTrueIndex (pred : List Bool) : ℕ :=
  (slideArgmax (fun i => windowTrueCount pred i (trueCount pred))
    (pred.length - trueCount pred + 1)).2

/-- The keep list built by remove_outliers (bad_data.py lines 56-61):
keep[i] is True exactly when pred_made[i] is True and i lies inside
the winning window. -/
def remove_outliers_mask (pred : List Bool) : List Bool :=
  (List.range pred.length).map (fun i =>
    pred.getD i false &&
      decide (maxTrueIndex pred ≤ i ∧ i < maxTrueIndex pred + trueCount pred))

/-- remove_outliers (bad_data.py lines 29-61), on the has-prediction
mask of the frames.  The config argument is unused by the Python body
as well. -/
def remove_outliers (H : HipDatasUS) (_config : Config) : List Bool :=
  remove_outliers_mask (H.hips.map HipDataUS.marked)

/-- HipDataUS(frame_no=n): the empty placeholder frame. -/
def emptyHip (n : ℕ) : HipDataUS :=
  { frame_no := n }

/-- The keep list chosen at the top of handle_bad_frames
(bad_data.py lines 117-120): the raw mask in sweep mode, the windowed
mask otherwise. -/
def keepMask (H : HipDatasUS) (config : Config) : List Bool :=
  if config.hip_mode = HipMode.US2DSW then H.hips.map HipDataUS.marked
  else remove_outliers H config

/-- The body of the per-frame loop of handle_bad_frames
(bad_data.py lines 124-168): returns the frame stored back at index i
and the reason recorded for i, if any.  A window-rejected frame gets
the joined upstream rejection reasons (or Not Enough Data when there
are none) in sweep mode only; a kept candidate runs the six validity
rules in order, first failure wins. -/
def processFrame (g : GeomChecks) (config : Config) (keep_i : Bool)
    (hip : HipDataUS) (rejection_reasons : List String) :
    HipDataUS × Option String :=
  let empty_hip := emptyHip hip.frame_no
  if !keep_i then
    (empty_hip,
      if config.hip_mode = HipMode.US2DSW then
        some (if rejection_reasons.isEmpty then "Not Enough Data"
              else String.intercalate " " rejection_reasons)
      else none)
  else if hip.metrics.isEmpty || hip.metrics.all (fun m => decide (m.value = 0)) then
    (empty_hip, some "No Metrics")
  else if hip.landmarks.isNone then
    (empty_hip, some "No Landmarks")
  else if g.badAlpha hip then
    (empty_hip, some "Alpha Angle Non-Sensical")
  else if !left_apex_line_flat g hip && !config.allow_irregular_illiums then
    (empty_hip, some "Ilium Line not Flat")
  else if g.badCoverage hip config then
    (empty_hip, some "Coverage Value Non-Sensical")
  else if apex_right_points_too_close hip then
    (empty_hip, some "Apex and Right Too Close")
  else (hip, none)

/-- The number of frames the loop of handle_bad_frames visits: the
Python zip of the frames with all_seg_rejection_reasons truncates to
the shorter of the two lists. -/
def hbfN (H : HipDatasUS) : ℕ :=
  min H.hips.length H.all_seg_rejection_reasons.length

/-- The loop body of handle_bad_frames at index i, reading the
original frame list (the zip iterator fetches element i before the
body overwrites index i, and the body of iteration i touches no other
index, so every iteration sees the original values). -/
def hbfProc (g : GeomChecks) (config : Config) (H : HipDatasUS) (i : ℕ) :
    HipDataUS × Option String :=
  processFrame g config ((keepMask H config).getD i false)
    (H.hips.getD i (emptyHip 0)) (H.all_seg_rejection_reasons.getD i [])

/-- handle_bad_frames (bad_data.py lines 107-171).  Frames are updated
in place (indices beyond the zip truncation are left untouched), and
bad_frame_reasons is replaced by the freshly collected dict, modelled
as the association list of the recorded (index, reason) pairs in
ascending index order. -/
def handle_bad_frames (g : GeomChecks) (H : HipDatasUS) (config : Config) :
    HipDatasUS :=
  { H with
    hips := (List.range H.hips.length).map (fun i =>
      if i < hbfN H then (hbfProc g config H i).1 else H.hips.getD i (emptyHip 0)),
    bad_frame_reasons := (List.range (hbfN H)).filterMap (fun i =>
      ((hbfProc g config H i).2).map (fun s => (i, s))) }

/- ------------------------------------------------------------------
   src/retuve/hip_us/modes/landmarks.py
   ------------------------------------------------------------------ -/

/-- Python round to the nearest integer, halves to even (the behaviour
of round on an exact value). -/
def pyRoundInt (q : ℚ) : ℤ :=
  let f := Int.floor q
  let r := q - f
  if r < 1 / 2 then f
  else if 1 / 2 < r then f + 1
  else if f % 2 = 0 then f else f + 1

/-- The (index, apex) pairs collected at the top of
_polyfit_replace_apex (landmarks.py lines 49-60): frames whose
landmark object is present and whose apex is present.  Python
enumerate is modelled as an index scan. -/
def collectApex (lms : List (Option LandmarksUS)) : List (ℕ × Point) :=
  (List.range lms.length).filterMap (fun i =>
    match lms.getD i none with
    | some lm => lm.apex.map (fun a => (i, a))
    | none => none)

/-- The t and x samples handed to np.polyfit for the x(t) fit (the
code converts the pixel coordinates with float(x)). -/
def apexXs (lms : List (Option LandmarksUS)) : List (ℕ × ℚ) :=
  (collectApex lms).map (fun q => (q.1, (q.2.1 : ℚ)))

/-- The t and y samples handed to np.polyfit for the y(t) fit. -/
def apexYs (lms : List (Option LandmarksUS)) : List (ℕ × ℚ) :=
  (collectApex lms).map (fun q => (q.1, (q.2.2 : ℚ)))

/-- The squared residual between an integer apex and the fitted point
(the code compares sqrt of this with max_pixel_err). -/
def residSq (a : Point) (x y : ℚ) : ℚ :=
  ((a.1 : ℚ) - x) * ((a.1 : ℚ) - x) + ((a.2 : ℚ) - y) * ((a.2 : ℚ) - y)

/-- _polyfit_replace_apex (landmarks.py lines 33-94).  The numeric
fit np.poly1d(np.polyfit(...)) is an external library routine,
abstracted as the parameter fit; it returns the fitted polynomial as
an evaluation function, or none when the fit fails numerically (the
try/except around the two polyfit calls).  The residual comparison
sqrt(dx^2 + dy^2) > max_pixel_err is stated on squares.  A frame whose
apex deviates is rebuilt with the same left, right, point_D, point_d
and mid_cov_point and the fitted apex rounded to integers
(int(round(...))). -/
def polyfit_replace_apex (fit : List (ℕ × ℚ) → Option (ℕ → ℚ))
    (degree : ℕ) (max_pixel_err : ℚ)
    (list_landmarks : List (Option LandmarksUS)) : List (Option LandmarksUS) :=
  if (collectApex list_landmarks).length < max (degree + 1) 3 then
    list_landmarks
  else
    match fit (apexXs list_landmarks), fit (apexYs list_landmarks) with
    | some px, some py =>
      (List.range list_landmarks.length).map (fun i =>
        match list_landmarks.getD i none with
        | none => none
        | some lm =>
          match lm.apex with
          | none => some lm
          | some a =>
            if max_pixel_err * max_pixel_err < residSq a (px i) (py i) then
              some { lm with
                apex := some (pyRoundInt (px i), pyRoundInt (py i)) }
            else some lm)
    | _, _ => list_landmarks

/-- The external per-frame geometric subroutines called by
landmarks_2_metrics_us: find_alpha_angle (retuve.hip_us.metrics.alpha)
and find_coverage (retuve.hip_us.metrics.coverage) are not under src,
and np.polyfit is a library routine; all three are abstracted. -/
structure ConvSubs where
  find_alpha_angle : Option LandmarksUS → ℚ
  find_coverage : Option LandmarksUS → ℚ
  fit : List (ℕ × ℚ) → Option (ℕ → ℚ)

/-- landmarks_2_metrics_us (landmarks.py lines 97-143): optionally
runs the apex polyfit correction (with the default degree 2 and
threshold 8.0), then builds one HipDataUS per input frame, with
frame_no the enumeration index and the metric list holding alpha then
coverage, each kept only when enabled in config.hip.measurements.
The shape argument is unused by the Python body as well. -/
def landmarks_2_metrics_us (subs : ConvSubs)
    (list_landmarks : List (Option LandmarksUS)) (_shape : ℕ × ℕ)
    (config : Config) : HipDatasUS :=
  let lms :=
    if config.use_polyfit_replace_apex then
      polyfit_replace_apex subs.fit 2 8 list_landmarks
    else list_landmarks
  { hips := (List.range lms.length).map (fun frame_no =>
      let landmarks := lms.getD frame_no none
      let alpha := subs.find_alpha_angle landmarks
      let coverage := subs.find_coverage landmarks
      let metrics :=
        ([(MetricUS.alpha, alpha), (MetricUS.coverage, coverage)]).filterMap
          (fun m => if m.1 ∈ config.measurements then
                      some { name := m.1, value := m.2 }
                    else none)
      { landmarks := landmarks, metrics := metrics, frame_no := frame_no }) }

/- ------------------------------------------------------------------
   src/retuve/hip_us/metrics/c_ratio.py
   ------------------------------------------------------------------ -/

/-- The ilium triangle-mesh vertices (only the vertex array is read by
get_centering_ratio). -/
structure Mesh where
  vertices : List Point3
deriving DecidableEq, Repr

/-- The femoral-head sphere as its three coordinate arrays (the code
indexes femoral_head_sphere with 0, 1, 2 and averages each array). -/
structure FemSphere where
  xs : List ℚ
  ys : List ℚ
  zs : List ℚ
deriving DecidableEq, Repr

/-- np.mean of a coordinate array. -/
def meanQ (l : List ℚ) : ℚ :=
  l.sum / (l.length : ℚ)

/-- np.min of a coordinate array (meaningful for nonempty input). -/
def minQ (l : List ℚ) : ℚ :=
  l.foldl min (l.headD 0)

/-- np.max of a coordinate array (meaningful for nonempty input). -/
def maxQ (l : List ℚ) : ℚ :=
  l.foldl max (l.headD 0)

/-- round(x, 2): two-decimal rounding. -/
def round2 (q : ℚ) : ℚ :=
  (pyRoundInt (q * 100) : ℚ) / 100

/-- The z coordinates of the mesh vertices. -/
def meshZs (mesh : Mesh) : List ℚ :=
  mesh.vertices.map (fun v => v.2.2)

/-- get_centering_ratio (c_ratio.py lines 31-78), reading only
hip_datas.graf_frame from the study.  With no Graf frame it returns
the sentinel (0, (None, None, None)); otherwise it takes the min and
max vertex z of the ilium mesh, the mean point of the femoral-head
sphere, and returns the rounded ratio together with the femoral-head
center and the max-z and min-z reference points. -/
def get_centering_ratio (mesh : Mesh) (femoral_head_sphere : FemSphere)
    (graf_frame : Option ℕ) :
    ℚ × (Option Point3 × Option Point3 × Option Point3) :=
  match graf_frame with
  | none => (0, (none, none, none))
  | some g =>
    let min_z := minQ (meshZs mesh)
    let max_z := maxQ (meshZs mesh)
    let fem_center : Point3 :=
      (meanQ femoral_head_sphere.xs, meanQ femoral_head_sphere.ys,
        meanQ femoral_head_sphere.zs)
    let min_z_vert : Point3 := (fem_center.1, fem_center.2.1, min_z)
    let max_z_vert : Point3 := (fem_center.1, fem_center.2.1, max_z)
    let ratio := (fem_center.2.2 - (g : ℚ)) / (max_z - min_z)
    (round2 ratio, (some fem_center, some max_z_vert, some min_z_vert))

/-- Maximum of a rational list by structural recursion, written from
the words of the claim (the maximum z of the ilium mesh vertices) to
compare against the foldl scan of the code. -/
def maxList : List ℚ → ℚ
  | [] => 0
  | [x] => x
  | x :: y :: rest => max x (maxList (y :: rest))

/-- Minimum of a rational list by structural recursion, spec side. -/
def minList : List ℚ → ℚ
  | [] => 0
  | [x] => x
  | x :: y :: rest => min x (minList (y :: rest))

/-- The centering-ratio value as the claim words it: mean z of the
femoral-head sphere minus the Graf frame index, divided by the spread
of the mesh vertex z values, rounded to two decimals. -/
def centeringRatioSpec (mesh : Mesh) (femoral_head_sphere : FemSphere)
    (g : ℕ) : ℚ :=
  round2 ((meanQ femoral_head_sphere.zs - (g : ℚ)) /
    (maxList (meshZs mesh) - minList (meshZs mesh)))

/- ------------------------------------------------------------------
   src/retuve/funcs.py
   ------------------------------------------------------------------ -/

/-- The exception classes distinguished by the hook-calling loop of
process_segs_us (funcs.py lines 166-216): a TypeError whose message
mentions a positional-argument mismatch (the arity-fallback trigger),
any other TypeError, and any non-TypeError exception. -/
inductive PyErr
  | typeErrorPosArg
  | typeErrorOther
  | otherExc
deriving DecidableEq, Repr

/-- An auxiliary diagnostic mapping returned by a hook (a Python dict
of string keys, values modelled as rationals). -/
abbrev DevMap := List (String × ℚ)

/-- The three return shapes a full-metric hook may produce: a scalar,
a (scalar, dict) pair, or a dict alone. -/
inductive HookResult
  | scalar (v : ℚ)
  | pair (v : ℚ) (dev : DevMap)
  | dictOnly (dev : DevMap)
deriving DecidableEq, Repr

/-- A full-metric hook, observed through its three call arities: the
outcome of calling it with (hip_datas, results, config), with
(hip_datas, config) and with (hip_datas,).  Each call either returns a
value or raises. -/
structure FullMetricHook where
  call3 : Except PyErr HookResult
  call2 : Except PyErr HookResult
  call1 : Except PyErr HookResult

/-- The return-shape dispatch of process_segs_us (funcs.py lines
177-188): a 2-tuple with a dict second component yields (value, dict),
a dict alone yields value 0 with the dict as auxiliary data, anything
else is the value itself. -/
def interpretResult : HookResult → ℚ × DevMap
  | HookResult.scalar v => (v, [])
  | HookResult.pair v d => (v, d)
  | HookResult.dictOnly d => (0, d)

/-- The attempt loop over the call arities (funcs.py lines 170-196):
a TypeError mentioning a positional argument moves to the next arity,
any other TypeError is re-raised, a non-TypeError exception sets the
value to 0 and stops, and a successful call is interpreted by shape.
Exhausting every arity leaves the initial value 0 and empty dict. -/
def runHookCalls : List (Except PyErr HookResult) → Except PyErr (ℚ × DevMap)
  | [] => Except.ok (0, [])
  | c :: rest =>
    match c with
    | Except.ok r => Except.ok (interpretResult r)
    | Except.error PyErr.typeErrorPosArg => runHookCalls rest
    | Except.error PyErr.typeErrorOther => Except.error PyErr.typeErrorOther
    | Except.error PyErr.otherExc => Except.ok (0, [])

/-- One full-metric hook processed by the loop of process_segs_us,
trying (hip_datas, results, config), then (hip_datas, config), then
(hip_datas,). -/
def runFullMetricHook (h : FullMetricHook) : Except PyErr (ℚ × DevMap) :=
  runHookCalls [h.call3, h.call2, h.call1]

/-- dict.update on an auxiliary mapping: keys of the update override,
new keys are appended. -/
def devUpdate (old upd : DevMap) : DevMap :=
  old.filter (fun p => (upd.find? (fun q => q.1 == p.1)).isNone) ++ upd

/-- Merging one hook's auxiliary data into dev_metrics_custom keyed by
the metric name (funcs.py lines 208-216). -/
def devInsert (m : List (String × DevMap)) (name : String) (d : DevMap) :
    List (String × DevMap) :=
  match m.find? (fun p => p.1 == name) with
  | some _ => m.map (fun p => if p.1 == name then (p.1, devUpdate p.2 d) else p)
  | none => m ++ [(name, d)]

/-- The full loop over config.hip.full_metric_functions
(funcs.py lines 166-216), accumulating the recorded (name, value)
custom metrics and the dev_metrics_custom mapping; an uncaught
exception from a hook aborts the loop (and the pipeline). -/
def runFullMetricHooks :
    List (String × FullMetricHook) →
    List (String × ℚ) × List (String × DevMap) →
    Except PyErr (List (String × ℚ) × List (String × DevMap))
  | [], acc => Except.ok acc
  | (name, h) :: rest, acc =>
    match runFullMetricHook h with
    | Except.error e => Except.error e
    | Except.ok (v, d) =>
      runFullMetricHooks rest
        (acc.1 ++ [(name, v)], if d.isEmpty then acc.2 else devInsert acc.2 name d)

/-- The try/except at the top of analyse_hip_3DUS (funcs.py lines
368-380).  The detection-and-conversion stage (process_segs_us with
the caller-supplied detection function) either returns results or
raises; the except branch executes raise e first, so the
ulogger.error call and the return None, None, None, None lines below
it are unreachable.  The rest of the pipeline after the try block is
abstracted as rest. -/
def analyse_hip_3DUS_toplevel {A V F M : Type} (process : Except PyErr A)
    (rest : A → V × F × M) :
    Except PyErr (Option A × Option V × Option F × Option M) :=
  match process with
  | Except.error e => Except.error e
  | Except.ok hd =>
    Except.ok (some hd, some (rest hd).1, some (rest hd).2.1, some (rest hd).2.2)

/-- The try/except of analyse_hip_2DUS (funcs.py lines 473-484): here
the except branch logs the critical error and returns
None, None, None. -/
def analyse_hip_2DUS_toplevel {A P D : Type} (process : Except PyErr A)
    (rest : A → P × D) : Except PyErr (Option A × Option P × Option D) :=
  match process with
  | Except.error _ => Except.ok (none, none, none)
  | Except.ok hd => Except.ok (some hd, some (rest hd).1, some (rest hd).2)

/-- The try/except of analyse_hip_2DUS_sweep (funcs.py lines 536-552):
as in analyse_hip_3DUS, raise e precedes the log-and-return-None
lines, so the exception propagates. -/
def analyse_hip_2DUS_sweep_toplevel {A P D V : Type} (process : Except PyErr A)
    (rest : A → P × D × V) :
    Except PyErr (Option A × Option P × Option D × Option V) :=
  match process with
  | Except.error e => Except.error e
  | Except.ok hd =>
    Except.ok (some hd, some (rest hd).1, some (rest hd).2.1, some (rest hd).2.2)

/- ------------------------------------------------------------------
   Sliding-window scan: the chosen start is the earliest argmax.
   ------------------------------------------------------------------ -/

lemma slideArgmax_succ (f : ℕ → ℕ) (n : ℕ) :
    slideArgmax f (n + 1) = slideStep f (slideArgmax f n) n := by
  simp [slideArgmax, List.range_succ, List.foldl_append]

lemma slideArgmax_spec (f : ℕ → ℕ) (n : ℕ) (hn : 0 < n) :
    (∀ i, i < n → f i ≤ (slideArgmax f n).1) ∧
    f (slideArgmax f n).2 = (slideArgmax f n).1 ∧
    (slideArgmax f n).2 < n ∧
    (∀ i, i < (slideArgmax f n).2 → f i < (slideArgmax f n).1) := by
  induction n with
  | zero => exact absurd hn (by omega)
  | succ n ih =>
    rcases Nat.eq_zero_or_pos n with h0 | hpos
    · subst h0
      have hbase : slideArgmax f 1 = (f 0, 0) := by
        by_cases h : 0 < f 0
        · simp [slideArgmax, List.range_succ, slideStep, h]
        · have hz : f 0 = 0 := by omega
          simp [slideArgmax, List.range_succ, slideStep, hz]
      rw [hbase]
      exact ⟨fun i hi => by interval_cases i; exact le_refl _, rfl, Nat.zero_lt_one,
        fun i hi => absurd hi (by omega)⟩
    · obtain ⟨ha, hb, hc, hd⟩ := ih hpos
      have hstep : slideArgmax f (n + 1) = slideStep f (slideArgmax f n) n :=
        slideArgmax_succ f n
      by_cases h : (slideArgmax f n).1 < f n
      · have heq : slideArgmax f (n + 1) = (f n, n) := by
          rw [hstep]; unfold slideStep; rw [if_pos h]
        rw [heq]
        refine ⟨?_, rfl, Nat.lt_succ_self n, ?_⟩
        · intro i hi
          rcases Nat.lt_or_ge i n with hlt | hge
          · exact le_of_lt (lt_of_le_of_lt (ha i hlt) h)
          · have hin : i = n := by omega
            subst hin; exact le_refl _
        · intro i hi
          have hi' : i < n := hi
          exact lt_of_le_of_lt (ha i hi') h
      · have heq : slideArgmax f (n + 1) = slideArgmax f n := by
          rw [hstep]; unfold slideStep; rw [if_neg h]
        rw [heq]
        refine ⟨?_, hb, Nat.lt_succ_of_lt hc, hd⟩
        intro i hi
        rcases Nat.lt_or_ge i n with hlt | hge
        · exact ha i hlt
        · have hin : i = n := by omega
          subst hin; omega

lemma trueCount_le_length (pred : List Bool) : trueCount pred ≤ pred.length :=
  List.countP_le_length (fun b => b)

/-- C2: for every boolean has-prediction mask, the window of width T
(T the total true count) chosen by remove_outliers has the maximum
achievable true count among all width-T windows that fit inside the
mask, ties going to the lowest start index; and every frame kept by
remove_outliers is a true frame inside that window. -/
theorem C2_window_optimal (pred : List Bool) (j : ℕ)
    (hj : j + trueCount pred ≤ pred.length) :
    (windowTrueCount pred j (trueCount pred) ≤
      windowTrueCount pred (maxTrueIndex pred) (trueCount pred)) ∧
    (windowTrueCount pred j (trueCount pred) =
        windowTrueCount pred (maxTrueIndex pred) (trueCount pred) →
      maxTrueIndex pred ≤ j) ∧
    (∀ i, (remove_outliers_mask pred).getD i false = true →
      pred.getD i false = true ∧
      maxTrueIndex pred ≤ i ∧ i < maxTrueIndex pred + trueCount pred) := by
  have hlen := trueCount_le_length pred
  obtain ⟨ha, hb, hc, hd⟩ :=
    slideArgmax_spec (fun i => windowTrueCount pred i (trueCount pred))
      (pred.length - trueCount pred + 1) (by omega)
  have hchos : (slideArgmax (fun i => windowTrueCount pred i (trueCount pred))
      (pred.length - trueCount pred + 1)).2 = maxTrueIndex pred := rfl
  rw [hchos] at hb hd
  have hjlt : j < pred.length - trueCount pred + 1 := by omega
  refine ⟨?_, ?_, ?_⟩
  · have h1 := ha j hjlt
    simp only at h1 hb
    omega
  · intro heq
    by_contra hcon
    push_neg at hcon
    have h2 := hd j hcon
    simp only at h2 hb
    omega
  · intro i hi
    unfold remove_outliers_mask at hi
    by_cases hilen : i < pred.length
    · have : ((List.range pred.length).map (fun k =>
          pred.getD k false &&
            decide (maxTrueIndex pred ≤ k ∧ k < maxTrueIndex pred + trueCount pred))).getD i false =
          (pred.getD i false &&
            decide (maxTrueIndex pred ≤ i ∧ i < maxTrueIndex pred + trueCount pred)) := by
        rw [List.getD_eq_getElem?_getD, List.getElem?_map, List.getElem?_range hilen]
        rfl
      rw [this] at hi
      simp only [Bool.and_eq_true, decide_eq_true_eq] at hi
      exact ⟨hi.1, hi.2.1, hi.2.2⟩
    · have : ((List.range pred.length).map (fun k =>
          pred.getD k false &&
            decide (maxTrueIndex pred ≤ k ∧ k < maxTrueIndex pred + trueCount pred))).getD i false = false := by
        rw [List.getD_eq_getElem?_getD]
        have : ((List.range pred.length).map (fun k =>
            pred.getD k false &&
              decide (maxTrueIndex pred ≤ k ∧ k < maxTrueIndex pred + trueCount pred)))[i]? = none := by
          apply List.getElem?_eq_none
          simpa using Nat.le_of_not_lt hilen
        rw [this]
        rfl
      rw [this] at hi
      exact absurd hi (by simp)

/-- C2 witness at a concrete mask. -/
theorem C2_window_optimal_witness :
    (1 + trueCount [true, false, true] ≤ 3) ∧
    ((windowTrueCount [true, false, true] 1 (trueCount [true, false, true]) ≤
        windowTrueCount [true, false, true] (maxTrueIndex [true, false, true])
          (trueCount [true, false, true])) ∧
      (windowTrueCount [true, false, true] 1 (trueCount [true, false, true]) =
          windowTrueCount [true, false, true] (maxTrueIndex [true, false, true])
            (trueCount [true, false, true]) →
        maxTrueIndex [true, false, true] ≤ 1) ∧
      (∀ i, (remove_outliers_mask [true, false, true]).getD i false = true →
        ([true, false, true] : List Bool).getD i false = true ∧
        maxTrueIndex [true, false, true] ≤ i ∧
        i < maxTrueIndex [true, false, true] + trueCount [true, false, true])) :=
  ⟨by decide, C2_window_optimal [true, false, true] 1 (by decide)⟩

/-- The 15-frame mask of the C3 scenario: true exactly at indices
1, 2, 3, 4, 5, 8 and 9. -/
def c3Mask : List Bool :=
  [false, true, true, true, true, true, false, false, true, true,
   false, false, false, false, false]

/-- C3 counterexample: on the scenario mask the filter selects window
start 0, not 1, and the selected window contains 5 true values, so
neither a start-1 window with 6 of the 7 trues nor any strictly better
window is selected. -/
theorem C3_counterexample :
    trueCount c3Mask = 7 ∧
    maxTrueIndex c3Mask ≠ 1 ∧
    windowTrueCount c3Mask (maxTrueIndex c3Mask) (trueCount c3Mask) = 5 := by
  decide

/-- C3 amended: on the scenario mask the filter selects window start 0
(covering indices 0 through 6 and containing 5 of the 7 true values),
and 5 is the maximum true count any width-7 window achieves on this
mask. -/
theorem C3_amended :
    maxTrueIndex c3Mask = 0 ∧
    windowTrueCount c3Mask 0 7 = 5 ∧
    (∀ j : Fin 9, windowTrueCount c3Mask (j : ℕ) 7 ≤ 5) := by
  decide

/- ------------------------------------------------------------------
   Access lemmas for handle_bad_frames.
   ------------------------------------------------------------------ -/

lemma handle_hips_length (g : GeomChecks) (H : HipDatasUS) (config : Config) :
    (handle_bad_frames g H config).hips.length = H.hips.length := by
  simp [handle_bad_frames]

lemma handle_hips_getElem (g : GeomChecks) (H : HipDatasUS) (config : Config)
    (i : ℕ) (hi : i < H.hips.length) :
    (handle_bad_frames g H config).hips[i]? =
      some (if i < hbfN H then (hbfProc g config H i).1
            else H.hips.getD i (emptyHip 0)) := by
  simp only [handle_bad_frames, List.getElem?_map, List.getElem?_range hi,
    Option.map_some']

lemma getD_of_getElem? {α : Type} {l : List α} {i : ℕ} {a d : α}
    (h : l[i]? = some a) : l.getD i d = a := by
  rw [List.getD_eq_getElem?_getD, h]
  rfl

lemma getElem?_of_lt_getD {α : Type} {l : List α} {i : ℕ} (d : α)
    (h : i < l.length) : l[i]? = some (l.getD i d) := by
  rw [List.getD_eq_getElem?_getD, List.getElem?_eq_getElem h]
  rfl

lemma find_filterMap_range (g : ℕ → Option String) (n i : ℕ) (hi : i < n) :
    (((List.range n).filterMap (fun j => (g j).map (fun s => (j, s)))).find?
      (fun p => p.1 == i)) = (g i).map (fun s => (i, s)) := by
  induction n with
  | zero => omega
  | succ n ih =>
    rw [List.range_succ, List.filterMap_append, List.find?_append]
    rcases Nat.lt_or_ge i n with h | h
    · rw [ih h]
      cases hgi : g i with
      | some s => simp
      | none =>
        simp only [Option.map_none', Option.none_or]
        cases hgn : g n with
        | some s =>
          simp only [List.filterMap_cons, hgn, Option.map_some', List.filterMap_nil]
          have : (((n, s) : ℕ × String).1 == i) = false := by
            simp; omega
          simp [List.find?, this]
        | none => simp [List.filterMap_cons, hgn]
    · have hin : i = n := by omega
      subst hin
      have hpref : ((List.range i).filterMap
          (fun j => (g j).map (fun s => (j, s)))).find? (fun p => p.1 == i) = none := by
        rw [List.find?_eq_none]
        intro p hp
        obtain ⟨j, hj, hpj⟩ := List.mem_filterMap.mp hp
        have hjlt : j < i := List.mem_range.mp hj
        cases hgj : g j with
        | none => rw [hgj] at hpj; simp at hpj
        | some s =>
          rw [hgj] at hpj
          simp only [Option.map_some', Option.some_inj] at hpj
          subst hpj
          simp
          omega
      rw [hpref]
      cases hgi : g i with
      | some s => simp [List.filterMap_cons, hgi, List.find?]
      | none => simp [List.filterMap_cons, hgi]

lemma lookupReason_handle (g : GeomChecks) (H : HipDatasUS) (config : Config)
    (i : ℕ) (hi : i < hbfN H) :
    lookupReason (handle_bad_frames g H config) i = (hbfProc g config H i).2 := by
  unfold lookupReason handle_bad_frames
  simp only
  rw [find_filterMap_range (fun j => (hbfProc g config H j).2) (hbfN H) i hi]
  cases (hbfProc g config H i).2 <;> simp

/-- The frame written back by the loop body is either the original
frame or the empty placeholder with its frame index. -/
lemma processFrame_fst (g : GeomChecks) (config : Config) (k : Bool)
    (hip : HipDataUS) (rej : List String) :
    (processFrame g config k hip rej).1 = hip ∨
      (processFrame g config k hip rej).1 = emptyHip hip.frame_no := by
  unfold processFrame
  by_cases h1 : !k
  · simp [h1]
  · simp only [h1, Bool.false_eq_true, if_false]
    by_cases h2 : (hip.metrics.isEmpty || hip.metrics.all fun m => decide (m.value = 0)) = true
    · simp [h2]
    · simp only [h2, if_false]
      by_cases h3 : hip.landmarks.isNone
      · simp [h3]
      · simp only [h3, Bool.false_eq_true, if_false]
        by_cases h4 : g.badAlpha hip
        · simp [h4]
        · simp only [h4, Bool.false_eq_true, if_false]
          by_cases h5 : (!left_apex_line_flat g hip && !config.allow_irregular_illiums) = true
          · simp [h5]
          · simp only [h5, if_false]
            by_cases h6 : g.badCoverage hip config
            · simp [h6]
            · simp only [h6, Bool.false_eq_true, if_false]
              by_cases h7 : apex_right_points_too_close hip
              · simp [h7]
              · simp [h7]

/-- C4: the landmark-to-metric converter produces exactly one
HipDataUS per input frame (carrying that frame index), and
handle_bad_frames preserves the frame-list length, every frame being
either left in place or replaced by the empty placeholder with the
same frame index. -/
theorem C4_length_invariant (subs : ConvSubs)
    (list_landmarks : List (Option LandmarksUS)) (shape : ℕ × ℕ)
    (config : Config) (g : GeomChecks) (H : HipDatasUS) (i : ℕ)
    (hi : i < H.hips.length) :
    (landmarks_2_metrics_us subs list_landmarks shape config).hips.length =
      list_landmarks.length ∧
    (∀ k, k < list_landmarks.length →
      ((landmarks_2_metrics_us subs list_landmarks shape config).hips.getD k
        (emptyHip 0)).frame_no = k) ∧
    (handle_bad_frames g H config).hips.length = H.hips.length ∧
    ((handle_bad_frames g H config).hips[i]? = H.hips[i]? ∨
      (handle_bad_frames g H config).hips[i]? =
        some (emptyHip ((H.hips.getD i (emptyHip 0)).frame_no))) := by
  have hpl : ∀ fit d e, (polyfit_replace_apex fit d e list_landmarks).length =
      list_landmarks.length := by
    intro fit d e
    unfold polyfit_replace_apex
    split
    · rfl
    · split
      · simp
      · rfl
  have hconv : (landmarks_2_metrics_us subs list_landmarks shape config).hips.length =
      list_landmarks.length := by
    unfold landmarks_2_metrics_us
    by_cases hflag : config.use_polyfit_replace_apex <;> simp [hflag, hpl]
  refine ⟨hconv, ?_, handle_hips_length g H config, ?_⟩
  · intro k hk
    have hk' : k < (landmarks_2_metrics_us subs list_landmarks shape config).hips.length := by
      omega
    unfold landmarks_2_metrics_us at hk' ⊢
    simp only [List.length_map, List.length_range] at hk'
    rw [List.getD_eq_getElem?_getD, List.getElem?_map, List.getElem?_range hk']
    rfl
  · rw [handle_hips_getElem g H config i hi]
    by_cases hn : i < hbfN H
    · rw [if_pos hn]
      rcases processFrame_fst g config ((keepMask H config).getD i false)
          (H.hips.getD i (emptyHip 0)) (H.all_seg_rejection_reasons.getD i []) with
        hcase | hcase
      · left
        unfold hbfProc
        rw [hcase, getElem?_of_lt_getD (emptyHip 0) hi]
      · right
        unfold hbfProc
        rw [hcase]
    · rw [if_neg hn]
      left
      rw [getElem?_of_lt_getD (emptyHip 0) hi]

/-- C4 witness at a concrete one-frame study. -/
theorem C4_length_invariant_witness :
    0 < (HipDatasUS.mk [emptyHip 0] [[]] [] none).hips.length ∧
    ((landmarks_2_metrics_us ⟨fun _ => 0, fun _ => 0, fun _ => none⟩ [none] (1, 1)
        { hip_mode := HipMode.US3D }).hips.length = 1 ∧
      (∀ k, k < 1 →
        (((landmarks_2_metrics_us ⟨fun _ => 0, fun _ => 0, fun _ => none⟩ [none] (1, 1)
          { hip_mode := HipMode.US3D }).hips).getD k (emptyHip 0)).frame_no = k) ∧
      (handle_bad_frames ⟨fun _ => false, fun _ _ => false, fun _ _ => true⟩
          (HipDatasUS.mk [emptyHip 0] [[]] [] none)
          { hip_mode := HipMode.US3D }).hips.length =
        (HipDatasUS.mk [emptyHip 0] [[]] [] none).hips.length ∧
      ((handle_bad_frames ⟨fun _ => false, fun _ _ => false, fun _ _ => true⟩
            (HipDatasUS.mk [emptyHip 0] [[]] [] none)
            { hip_mode := HipMode.US3D }).hips[0]? =
          (HipDatasUS.mk [emptyHip 0] [[]] [] none).hips[0]? ∨
        (handle_bad_frames ⟨fun _ => false, fun _ _ => false, fun _ _ => true⟩
            (HipDatasUS.mk [emptyHip 0] [[]] [] none)
            { hip_mode := HipMode.US3D }).hips[0]? =
          some (emptyHip (((HipDatasUS.mk [emptyHip 0] [[]] [] none).hips.getD 0
            (emptyHip 0)).frame_no)))) :=
  ⟨by decide,
    C4_length_invariant ⟨fun _ => 0, fun _ => 0, fun _ => none⟩ [none] (1, 1)
      { hip_mode := HipMode.US3D } ⟨fun _ => false, fun _ _ => false, fun _ _ => true⟩
      (HipDatasUS.mk [emptyHip 0] [[]] [] none) 0 (by decide)⟩

/- ------------------------------------------------------------------
   C5: the validity-rule cascade.
   ------------------------------------------------------------------ -/

/-- The six validity rules in the order the claim lists them, each
paired with its reason string, written as a rule table to compare
against the nested short-circuit conditionals of the code. -/
def specRules (g : GeomChecks) (config : Config) :
    List ((HipDataUS → Bool) × String) :=
  [ (fun hip => hip.metrics.isEmpty || hip.metrics.all (fun m => decide (m.value = 0)),
      "No Metrics"),
    (fun hip => hip.landmarks.isNone, "No Landmarks"),
    (fun hip => g.badAlpha hip, "Alpha Angle Non-Sensical"),
    (fun hip => !left_apex_line_flat g hip && !config.allow_irregular_illiums,
      "Ilium Line not Flat"),
    (fun hip => g.badCoverage hip config, "Coverage Value Non-Sensical"),
    (fun hip => apex_right_points_too_close hip, "Apex and Right Too Close") ]

/-- The reason of the first failing rule of the table, if any. -/
def firstFailingRule (g : GeomChecks) (config : Config) (hip : HipDataUS) :
    Option String :=
  ((specRules g config).find? (fun r => r.1 hip)).map Prod.snd

lemma processFrame_keep (g : GeomChecks) (config : Config) (hip : HipDataUS)
    (rej : List String) :
    (processFrame g config true hip rej).2 = firstFailingRule g config hip ∧
    (processFrame g config true hip rej).1 =
      (match firstFailingRule g config hip with
       | none => hip
       | some _ => emptyHip hip.frame_no) := by
  unfold processFrame firstFailingRule specRules
  by_cases h1 : (hip.metrics.isEmpty || hip.metrics.all fun m => decide (m.value = 0)) = true
  · simp [h1, List.find?]
  · by_cases h2 : hip.landmarks.isNone
    · simp [h1, h2, List.find?]
    · by_cases h3 : g.badAlpha hip
      · simp [h1, h2, h3, List.find?]
      · by_cases h4 : (!left_apex_line_flat g hip && !config.allow_irregular_illiums) = true
        · simp [h1, h2, h3, h4, List.find?]
        · by_cases h5 : g.badCoverage hip config
          · simp [h1, h2, h3, h4, h5, List.find?]
          · by_cases h6 : apex_right_points_too_close hip
            · simp [h1, h2, h3, h4, h5, h6, List.find?]
            · simp [h1, h2, h3, h4, h5, h6, List.find?]

/-- C5: for every keep-candidate frame the recorded reason is the one
of the first failing rule of the six-rule table, in the claimed order,
and the frame is emptied exactly when some rule fails; the ilium-line
rule treats a missing left or apex point as flat (so it cannot fire on
such frames), while the apex-right rule treats a missing apex or right
point as too close (so it fails on such frames). -/
theorem C5_rule_cascade (g : GeomChecks) (config : Config) (H : HipDatasUS)
    (i : ℕ) (hi : i < hbfN H)
    (hk : (keepMask H config).getD i false = true) :
    (lookupReason (handle_bad_frames g H config) i =
      firstFailingRule g config (H.hips.getD i (emptyHip 0))) ∧
    ((handle_bad_frames g H config).hips[i]? =
      some (match firstFailingRule g config (H.hips.getD i (emptyHip 0)) with
            | none => H.hips.getD i (emptyHip 0)
            | some _ => emptyHip ((H.hips.getD i (emptyHip 0)).frame_no))) ∧
    (∀ hip2 lm, hip2.landmarks = some lm → (lm.left = none ∨ lm.apex = none) →
      left_apex_line_flat g hip2 = true) ∧
    (∀ hip2 lm, hip2.landmarks = some lm → (lm.right = none ∨ lm.apex = none) →
      apex_right_points_too_close hip2 = true) := by
  have hlen : i < H.hips.length := lt_of_lt_of_le hi (Nat.min_le_left _ _)
  obtain ⟨hp2, hp1⟩ := processFrame_keep g config (H.hips.getD i (emptyHip 0))
    (H.all_seg_rejection_reasons.getD i [])
  refine ⟨?_, ?_, ?_, ?_⟩
  · rw [lookupReason_handle g H config i hi]
    unfold hbfProc
    rw [hk]
    exact hp2
  · rw [handle_hips_getElem g H config i hlen, if_pos hi]
    unfold hbfProc
    rw [hk, hp1]
  · intro hip2 lm hlm hmiss
    unfold left_apex_line_flat
    rw [hlm]
    rcases hmiss with hmiss | hmiss <;>
      rcases hll : lm.left with _ | l <;> rcases hla : lm.apex with _ | a <;>
        simp_all
  · intro hip2 lm hlm hmiss
    unfold apex_right_points_too_close
    rw [hlm]
    rcases hmiss with hmiss | hmiss <;>
      rcases hlr : lm.right with _ | r <;> rcases hla : lm.apex with _ | a <;>
        simp_all

/-- Geometric checks that never reject: alpha and coverage always in
bounds, every left-apex segment within 10 degrees of horizontal. -/
def trivialChecks : GeomChecks :=
  ⟨fun _ => false, fun _ _ => false, fun _ _ => true⟩

/-- A windowed-mode (3D volume) configuration. -/
def cfg3D : Config :=
  { hip_mode := HipMode.US3D }

/-- A sweep-mode configuration. -/
def cfgSweep : Config :=
  { hip_mode := HipMode.US2DSW }

/-- The landmark set shared by the concrete example frames: left at
the origin, apex at x = 100 and right at x = 200, all on one line. -/
def wideLandmarks : LandmarksUS :=
  { left := some (0, 0), right := some (200, 0), apex := some (100, 0) }

/-- A frame that passes every validity rule under trivialChecks:
nonzero metrics, full landmarks, apex and right 100 pixels apart. -/
def goodHip (n : ℕ) : HipDataUS :=
  { frame_no := n,
    landmarks := some wideLandmarks,
    metrics := [{ name := MetricUS.alpha, value := 60 }] }

/-- A frame with landmarks but an empty metric list (still marked). -/
def noMetricsHip (n : ℕ) : HipDataUS :=
  { frame_no := n,
    landmarks := some wideLandmarks,
    metrics := [] }

/-- C5 witness: a one-frame sweep study whose kept frame has no
metrics is emptied with reason No Metrics. -/
theorem C5_rule_cascade_witness :
    (0 < hbfN (HipDatasUS.mk [noMetricsHip 0] [[]] [] none) ∧
      (keepMask (HipDatasUS.mk [noMetricsHip 0] [[]] [] none) cfgSweep).getD 0 false = true) ∧
    (lookupReason (handle_bad_frames trivialChecks
        (HipDatasUS.mk [noMetricsHip 0] [[]] [] none) cfgSweep) 0 =
      firstFailingRule trivialChecks cfgSweep
        ((HipDatasUS.mk [noMetricsHip 0] [[]] [] none).hips.getD 0 (emptyHip 0))) :=
  ⟨⟨by decide, by decide⟩,
    (C5_rule_cascade trivialChecks cfgSweep
      (HipDatasUS.mk [noMetricsHip 0] [[]] [] none) 0 (by decide) (by decide)).1⟩

/- ------------------------------------------------------------------
   C6: reasons for window/mask-rejected frames.
   ------------------------------------------------------------------ -/

lemma processFrame_reject (g : GeomChecks) (config : Config) (hip : HipDataUS)
    (rej : List String) :
    processFrame g config false hip rej =
      (emptyHip hip.frame_no,
        if config.hip_mode = HipMode.US2DSW then
          some (if rej.isEmpty then "Not Enough Data"
                else String.intercalate " " rej)
        else none) := by
  unfold processFrame
  simp

/-- The three-frame windowed-mode study of the C6 counterexample: the
marked frames 0 and 2 do not fit one width-2 window, so frame 2 is
window-rejected. -/
def winEx : HipDatasUS :=
  ⟨[goodHip 0, emptyHip 1, goodHip 2], [[], [], []], [], none⟩

/-- C6 counterexample: in windowed (3D) mode, frame 2 of winEx fails
the window test and is emptied, yet no rejection reason at all is
recorded for it (and not for lack of an upstream reason to join). -/
theorem C6_counterexample :
    (keepMask winEx cfg3D).getD 2 false = false ∧
    (handle_bad_frames trivialChecks winEx cfg3D).hips[2]? = some (emptyHip 2) ∧
    lookupReason (handle_bad_frames trivialChecks winEx cfg3D) 2 = none ∧
    winEx.all_seg_rejection_reasons.getD 2 [] = [] := by
  refine ⟨by decide, ?_, ?_, by decide⟩
  · rfl
  · rfl

/-- C6 amended: a frame rejected by the pre-filtering window/mask test
gets a recorded reason in sweep mode only, that reason being the
space-joined upstream segmentation rejection reasons, or Not Enough
Data when none were recorded; in windowed mode the frame is emptied
with no reason recorded. -/
theorem C6_amended (g : GeomChecks) (H : HipDatasUS) (config : Config) (i : ℕ)
    (hi : i < hbfN H) (hk : (keepMask H config).getD i false = false) :
    (config.hip_mode = HipMode.US2DSW →
      lookupReason (handle_bad_frames g H config) i =
        some (if (H.all_seg_rejection_reasons.getD i []).isEmpty then
                "Not Enough Data"
              else String.intercalate " " (H.all_seg_rejection_reasons.getD i []))) ∧
    (config.hip_mode ≠ HipMode.US2DSW →
      lookupReason (handle_bad_frames g H config) i = none) ∧
    (handle_bad_frames g H config).hips[i]? =
      some (emptyHip ((H.hips.getD i (emptyHip 0)).frame_no)) := by
  have hlen : i < H.hips.length := lt_of_lt_of_le hi (Nat.min_le_left _ _)
  have hproc := processFrame_reject g config (H.hips.getD i (emptyHip 0))
    (H.all_seg_rejection_reasons.getD i [])
  refine ⟨?_, ?_, ?_⟩
  · intro hmode
    rw [lookupReason_handle g H config i hi]
    unfold hbfProc
    rw [hk, hproc]
    simp [hmode]
  · intro hmode
    rw [lookupReason_handle g H config i hi]
    unfold hbfProc
    rw [hk, hproc]
    simp [hmode]
  · rw [handle_hips_getElem g H config i hlen, if_pos hi]
    unfold hbfProc
    rw [hk, hproc]

/-- C6 amended witness: a one-frame sweep study with an unmarked frame
and no upstream reasons records Not Enough Data. -/
theorem C6_amended_witness :
    (0 < hbfN (HipDatasUS.mk [emptyHip 0] [[]] [] none) ∧
      (keepMask (HipDatasUS.mk [emptyHip 0] [[]] [] none) cfgSweep).getD 0 false =
        false) ∧
    (cfgSweep.hip_mode = HipMode.US2DSW →
      lookupReason (handle_bad_frames trivialChecks
        (HipDatasUS.mk [emptyHip 0] [[]] [] none) cfgSweep) 0 =
        some (if ((HipDatasUS.mk [emptyHip 0] [[]] [] none).all_seg_rejection_reasons.getD
                0 []).isEmpty then "Not Enough Data"
              else String.intercalate " "
                ((HipDatasUS.mk [emptyHip 0] [[]] [] none).all_seg_rejection_reasons.getD
                  0 []))) :=
  ⟨⟨by decide, by decide⟩,
    (C6_amended trivialChecks (HipDatasUS.mk [emptyHip 0] [[]] [] none) cfgSweep 0
      (by decide) (by decide)).1⟩

/- ------------------------------------------------------------------
   C7: idempotence of the filter.
   ------------------------------------------------------------------ -/

lemma processFrame_fst_empty (g : GeomChecks) (config : Config) (k : Bool)
    (m : ℕ) (rej : List String) :
    (processFrame g config k (emptyHip m) rej).1 = emptyHip m := by
  unfold processFrame
  by_cases h : !k
  · simp [h, emptyHip]
  · simp [h, emptyHip]

/-- The five-frame windowed-mode study of the C7 counterexample. -/
def idemEx : HipDatasUS :=
  ⟨[goodHip 0, emptyHip 1, goodHip 2, goodHip 3, emptyHip 4],
    [[], [], [], [], []], [], none⟩

/-- C7 counterexample: after one pass of the filter on idemEx, frame 2
is kept intact; a second pass of the same filter empties it (the
second windowed scan works with width 2, the count of surviving
frames, which no longer spans frames 0 and 2), so re-application does
change the state. -/
theorem C7_counterexample :
    (handle_bad_frames trivialChecks idemEx cfg3D).hips[2]? = some (goodHip 2) ∧
    (handle_bad_frames trivialChecks
        (handle_bad_frames trivialChecks idemEx cfg3D) cfg3D).hips[2]? =
      some (emptyHip 2) ∧
    goodHip 2 ≠ emptyHip 2 := by
  refine ⟨?_, ?_, ?_⟩
  · rfl
  · rfl
  · intro h
    exact absurd (congrArg HipDataUS.metrics h) (by simp [goodHip, emptyHip])

/-- C7 amended: re-applying the bad-frame filter never restores a
frame — an already-empty frame stays the same empty placeholder — but
the filter is not idempotent: in windowed mode a second application
can empty further frames (the window width shrinks to the surviving
true count). -/
theorem C7_amended (g : GeomChecks) (H : HipDatasUS) (config : Config)
    (i m : ℕ) (hi : i < H.hips.length)
    (hempty : H.hips[i]? = some (emptyHip m)) :
    (handle_bad_frames g H config).hips[i]? = some (emptyHip m) := by
  have hgetD : H.hips.getD i (emptyHip 0) = emptyHip m :=
    getD_of_getElem? hempty
  rw [handle_hips_getElem g H config i hi]
  by_cases hn : i < hbfN H
  · rw [if_pos hn]
    unfold hbfProc
    rw [hgetD, processFrame_fst_empty]
  · rw [if_neg hn, hgetD]

/-- C7 amended witness: an already-empty single-frame study passes
through the filter unchanged. -/
theorem C7_amended_witness :
    ((HipDatasUS.mk [emptyHip 5] [[]] [] none).hips[0]? = some (emptyHip 5)) ∧
    (handle_bad_frames trivialChecks (HipDatasUS.mk [emptyHip 5] [[]] [] none)
      cfg3D).hips[0]? = some (emptyHip 5) :=
  ⟨by decide,
    C7_amended trivialChecks (HipDatasUS.mk [emptyHip 5] [[]] [] none) cfg3D 0 5
      (by decide) (by decide)⟩

/- ------------------------------------------------------------------
   C1: the top-level error handling of the entry points.
   ------------------------------------------------------------------ -/

/-- C1: evaluation of the three entry points when the detection or
conversion stage raises.  analyse_hip_3DUS and analyse_hip_2DUS_sweep
re-raise the exception (the raise e at funcs.py lines 378 and 550
comes before the logging and the all-None return, leaving those lines
unreachable), while analyse_hip_2DUS catches it and returns the
all-None tuple. -/
theorem C1_error_path_eval :
    @analyse_hip_3DUS_toplevel Unit Unit Unit Unit (Except.error PyErr.otherExc)
        (fun _ => ((), (), ())) = Except.error PyErr.otherExc ∧
    @analyse_hip_2DUS_sweep_toplevel Unit Unit Unit Unit
        (Except.error PyErr.otherExc) (fun _ => ((), (), ())) =
      Except.error PyErr.otherExc ∧
    @analyse_hip_2DUS_toplevel Unit Unit Unit (Except.error PyErr.otherExc)
        (fun _ => ((), ())) = Except.ok (none, none, none) :=
  ⟨rfl, rfl, rfl⟩

/- ------------------------------------------------------------------
   C8: the centering ratio.
   ------------------------------------------------------------------ -/

lemma foldl_max_eq (xs : List ℚ) :
    ∀ a : ℚ, xs.foldl max a = if xs.isEmpty then a else max a (maxList xs) := by
  induction xs with
  | nil => intro a; simp
  | cons x xs ih =>
    intro a
    simp only [List.foldl_cons, List.isEmpty_cons, Bool.false_eq_true, if_false]
    rw [ih (max a x)]
    cases xs with
    | nil => simp [maxList]
    | cons y ys =>
      simp only [List.isEmpty_cons, Bool.false_eq_true, if_false, maxList]
      rw [max_assoc]

lemma foldl_min_eq (xs : List ℚ) :
    ∀ a : ℚ, xs.foldl min a = if xs.isEmpty then a else min a (minList xs) := by
  induction xs with
  | nil => intro a; simp
  | cons x xs ih =>
    intro a
    simp only [List.foldl_cons, List.isEmpty_cons, Bool.false_eq_true, if_false]
    rw [ih (min a x)]
    cases xs with
    | nil => simp [minList]
    | cons y ys =>
      simp only [List.isEmpty_cons, Bool.false_eq_true, if_false, minList]
      rw [min_assoc]

lemma maxQ_eq_maxList (l : List ℚ) (h : l ≠ []) : maxQ l = maxList l := by
  cases l with
  | nil => exact absurd rfl h
  | cons x xs =>
    unfold maxQ
    simp only [List.headD_cons, List.foldl_cons]
    rw [max_self, foldl_max_eq]
    cases xs with
    | nil => simp [maxList]
    | cons y ys => simp [maxList]

lemma minQ_eq_minList (l : List ℚ) (h : l ≠ []) : minQ l = minList l := by
  cases l with
  | nil => exact absurd rfl h
  | cons x xs =>
    unfold minQ
    simp only [List.headD_cons, List.foldl_cons]
    rw [min_self, foldl_min_eq]
    cases xs with
    | nil => simp [minList]
    | cons y ys => simp [minList]

/-- C8: get_centering_ratio returns exactly (0, (None, None, None))
when no Graf frame was identified, and otherwise the mean z of the
femoral-head sphere minus the Graf frame index, divided by the spread
between the maximum and minimum mesh vertex z, rounded to two
decimals, together with the femoral-head center and the max-z and
min-z reference points. -/
theorem C8_centering_ratio (mesh : Mesh) (sph : FemSphere) (g : ℕ)
    (hne : mesh.vertices ≠ []) :
    get_centering_ratio mesh sph none = (0, (none, none, none)) ∧
    get_centering_ratio mesh sph (some g) =
      (centeringRatioSpec mesh sph g,
        (some (meanQ sph.xs, meanQ sph.ys, meanQ sph.zs),
         some (meanQ sph.xs, meanQ sph.ys, maxList (meshZs mesh)),
         some (meanQ sph.xs, meanQ sph.ys, minList (meshZs mesh)))) := by
  have hzs : meshZs mesh ≠ [] := by
    unfold meshZs
    simpa using hne
  constructor
  · rfl
  · simp only [get_centering_ratio, centeringRatioSpec]
    rw [maxQ_eq_maxList _ hzs, minQ_eq_minList _ hzs]

/-- C8 witness at a concrete two-vertex mesh. -/
theorem C8_centering_ratio_witness :
    (Mesh.mk [(0, 0, 0), (0, 0, 10)]).vertices ≠ [] ∧
    (get_centering_ratio (Mesh.mk [(0, 0, 0), (0, 0, 10)])
        (FemSphere.mk [1] [2] [3]) none = (0, (none, none, none)) ∧
      get_centering_ratio (Mesh.mk [(0, 0, 0), (0, 0, 10)])
          (FemSphere.mk [1] [2] [3]) (some 2) =
        (centeringRatioSpec (Mesh.mk [(0, 0, 0), (0, 0, 10)])
            (FemSphere.mk [1] [2] [3]) 2,
          (some (meanQ [1], meanQ [2], meanQ [3]),
           some (meanQ [1], meanQ [2],
             maxList (meshZs (Mesh.mk [(0, 0, 0), (0, 0, 10)]))),
           some (meanQ [1], meanQ [2],
             minList (meshZs (Mesh.mk [(0, 0, 0), (0, 0, 10)])))))) :=
  ⟨by simp,
    C8_centering_ratio (Mesh.mk [(0, 0, 0), (0, 0, 10)])
      (FemSphere.mk [1] [2] [3]) 2 (by simp)⟩

/- ------------------------------------------------------------------
   C9: the apex polyfit correction.
   ------------------------------------------------------------------ -/

/-- C9: with the default degree 2 and threshold 8.0, the apex polyfit
correction leaves the landmark list entirely unchanged when fewer
than max(degree + 1, 3) = 3 frames have a valid apex or when the
numeric fit fails; otherwise exactly those frames whose apex deviates
from the fitted curves by more than 8 pixels get the fitted, rounded
apex (all other landmark fields copied), every other frame staying
exactly unchanged. -/
theorem C9_polyfit_apex (fit : List (ℕ × ℚ) → Option (ℕ → ℚ))
    (lms : List (Option LandmarksUS)) :
    ((collectApex lms).length < 3 → polyfit_replace_apex fit 2 8 lms = lms) ∧
    ((fit (apexXs lms) = none ∨ fit (apexYs lms) = none) →
      polyfit_replace_apex fit 2 8 lms = lms) ∧
    (∀ px py, fit (apexXs lms) = some px → fit (apexYs lms) = some py →
      3 ≤ (collectApex lms).length →
      ∀ i, i < lms.length →
        (∀ lm a, lms[i]? = some (some lm) → lm.apex = some a →
          8 * 8 < residSq a (px i) (py i) →
          (polyfit_replace_apex fit 2 8 lms)[i]? =
            some (some { lm with
              apex := some (pyRoundInt (px i), pyRoundInt (py i)) })) ∧
        (∀ lm a, lms[i]? = some (some lm) → lm.apex = some a →
          ¬(8 * 8 < residSq a (px i) (py i)) →
          (polyfit_replace_apex fit 2 8 lms)[i]? = some (some lm)) ∧
        (∀ lm, lms[i]? = some (some lm) → lm.apex = none →
          (polyfit_replace_apex fit 2 8 lms)[i]? = some (some lm)) ∧
        (lms[i]? = some none →
          (polyfit_replace_apex fit 2 8 lms)[i]? = some none)) := by
  have hmax : max (2 + 1) 3 = 3 := rfl
  refine ⟨?_, ?_, ?_⟩
  · intro h
    unfold polyfit_replace_apex
    rw [hmax, if_pos h]
  · intro h
    by_cases hg : (collectApex lms).length < 3
    · unfold polyfit_replace_apex
      rw [hmax, if_pos hg]
    · unfold polyfit_replace_apex
      rw [hmax, if_neg hg]
      rcases h with h | h
      · rw [h]
      · rw [h]
        cases fit (apexXs lms) <;> rfl
  · intro px py hpx hpy hge i hi
    have hg : ¬((collectApex lms).length < 3) := by omega
    have hmain : (polyfit_replace_apex fit 2 8 lms)[i]? =
        some (match lms.getD i none with
          | none => none
          | some lm =>
            match lm.apex with
            | none => some lm
            | some a =>
              if 8 * 8 < residSq a (px i) (py i) then
                some { lm with
                  apex := some (pyRoundInt (px i), pyRoundInt (py i)) }
              else some lm) := by
      unfold polyfit_replace_apex
      rw [hmax, if_neg hg, hpx, hpy]
      simp only [List.getElem?_map, List.getElem?_range hi, Option.map_some']
    refine ⟨?_, ?_, ?_, ?_⟩
    · intro lm a hlm hapex hres
      rw [hmain, getD_of_getElem? hlm]
      simp only [hapex, if_pos hres]
    · intro lm a hlm hapex hres
      rw [hmain, getD_of_getElem? hlm]
      simp only [hapex, if_neg hres]
    · intro lm hlm hapex
      rw [hmain, getD_of_getElem? hlm]
      simp only [hapex]
    · intro hlm
      rw [hmain, getD_of_getElem? hlm]

/-- C9 witness: with only two valid apexes the guard fires and the
list is returned unchanged, and a failing fit also returns the list
unchanged. -/
theorem C9_polyfit_apex_witness :
    ((collectApex [some wideLandmarks, some wideLandmarks]).length < 3) ∧
    polyfit_replace_apex (fun _ => none) 2 8
        [some wideLandmarks, some wideLandmarks] =
      [some wideLandmarks, some wideLandmarks] :=
  ⟨by decide,
    (C9_polyfit_apex (fun _ => none) [some wideLandmarks, some wideLandmarks]).1
      (by decide)⟩

/- ------------------------------------------------------------------
   C10: the full-metric hook loop.
   ------------------------------------------------------------------ -/

/-- A hook whose 3-arity call raises a TypeError that does not
mention a positional-argument mismatch, as a TypeError raised inside
the hook body does. -/
def badTypeErrorHook : FullMetricHook :=
  ⟨Except.error PyErr.typeErrorOther, Except.ok (HookResult.scalar 1),
    Except.ok (HookResult.scalar 1)⟩

/-- C10 counterexample: a hook raising a TypeError whose message does
not mention positional arguments is re-raised by the loop (funcs.py
lines 190-193), aborting the pipeline instead of being caught with
value 0. -/
theorem C10_counterexample :
    runFullMetricHooks [("m", badTypeErrorHook)] ([], []) =
      Except.error PyErr.typeErrorOther :=
  rfl

/-- C10 amended: the loop tries (hip_datas, results, config), then
(hip_datas, config), then (hip_datas,), treating only a TypeError
mentioning a positional-argument mismatch as the arity-fallback
trigger, so a callable accepting only (hip_datas) is invoked and its
scalar recorded; the three return shapes are accepted (scalar;
scalar-and-mapping; mapping alone with value 0); a non-TypeError
runtime failure is caught with value 0; but a TypeError not
identifying an arity mismatch propagates and aborts the loop. -/
theorem C10_amended :
    (∀ v : ℚ, runFullMetricHook
        ⟨Except.error PyErr.typeErrorPosArg, Except.error PyErr.typeErrorPosArg,
          Except.ok (HookResult.scalar v)⟩ = Except.ok (v, [])) ∧
    (∀ (v : ℚ) (c2 c1 : Except PyErr HookResult),
      runFullMetricHook ⟨Except.ok (HookResult.scalar v), c2, c1⟩ =
        Except.ok (v, [])) ∧
    (∀ (v : ℚ) (d : DevMap) (c2 c1 : Except PyErr HookResult),
      runFullMetricHook ⟨Except.ok (HookResult.pair v d), c2, c1⟩ =
        Except.ok (v, d)) ∧
    (∀ (d : DevMap) (c2 c1 : Except PyErr HookResult),
      runFullMetricHook ⟨Except.ok (HookResult.dictOnly d), c2, c1⟩ =
        Except.ok (0, d)) ∧
    (∀ c2 c1 : Except PyErr HookResult,
      runFullMetricHook ⟨Except.error PyErr.otherExc, c2, c1⟩ =
        Except.ok (0, [])) ∧
    (∀ c2 c1 : Except PyErr HookResult,
      runFullMetricHook ⟨Except.error PyErr.typeErrorOther, c2, c1⟩ =
        Except.error PyErr.typeErrorOther) ∧
    (∀ (name : String) (v : ℚ),
      runFullMetricHooks [(name,
        ⟨Except.error PyErr.typeErrorPosArg, Except.error PyErr.typeErrorPosArg,
          Except.ok (HookResult.scalar v)⟩)] ([], []) =
        Except.ok ([(name, v)], [])) :=
  ⟨fun _ => rfl, fun _ _ _ => rfl, fun _ _ _ _ => rfl, fun _ _ _ => rfl,
    fun _ _ => rfl, fun _ _ => rfl, fun _ _ => rfl⟩

end Retuve
